import Mathlib

/-!
Shallow embedding of the dependent-service bootstrap and verification
harness of `magicpptx` (`src/servers_setup/start_es_server.py` and
`src/servers_setup/verify_start_es_server.py`).

External effects (HTTP probes, the OS process table, the wall clock) are
modelled as explicit inputs: every probe request's outcome, clock reading
and process-table fact is a parameter, and each Python function becomes a
pure Lean function of those parameters.  Exceptions are modelled with
`Except String`; the Python `float` success rate is modelled exactly with
`ℚ` (all arithmetic the claims touch is exact in both).
-/

namespace ServersSetup

/-- A recorded test outcome, mirroring the dict built in `run_test`
(`verify_start_es_server.py`, lines 102-108): name, success flag, message,
duration string and timestamp string. -/
structure TestResult where
  name : String
  success : Bool
  message : String
  duration : String
  timestamp : String
  deriving Repr, DecidableEq

/-- Embedding of `run_test(test_name, test_func)` (`verify_start_es_server.py`
lines 89-113).  The behaviour of `test_func` is an input: `Except.ok v` when
the call returns `v`, `Except.error e` when it raises an exception whose
`str` is `e`.  The wall-clock readings become the `duration`/`timestamp`
string inputs.  It appends one result dict to `test_results` and returns the
`success` flag (the probe's own return value `result` is bound but never
used by the source). -/
def run_test {α : Type} (test_results : List TestResult)
    (test_name : String) (test_func : Except String α)
    (duration timestamp : String) : List TestResult × Bool :=
  let sm : Bool × String :=
    match test_func with
    | .ok _ => (true, "Test passed")
    | .error e => (false, "Test failed: " ++ e)
  (test_results ++ [⟨test_name, sm.1, sm.2, duration, timestamp⟩], sm.1)

/-- Summary count `total_tests = len(test_results)` (`verify_start_es_server.py`
line 191). -/
def total_tests (rs : List TestResult) : ℕ := rs.length

/-- Summary count `passed_tests = sum(1 for r in test_results if r["success"])`
(line 192). -/
def passed_tests (rs : List TestResult) : ℕ :=
  (rs.filter (fun r => r.success)).length

/-- Summary count `failed_tests = total_tests - passed_tests` (line 193). -/
def failed_tests (rs : List TestResult) : ℕ := total_tests rs - passed_tests rs

/-- Summary statistic
`success_rate = (passed_tests / total_tests) * 100 if total_tests > 0 else 0`
(line 194).  Python float division is modelled exactly in `ℚ`; every value
the claims compare (0, 75, 100, ...) is exact in both. -/
def success_rate (rs : List TestResult) : ℚ :=
  if 0 < total_tests rs then
    ((passed_tests rs : ℚ) / (total_tests rs : ℚ)) * 100
  else 0

/-- Model of CPython `f"\x7bq:.1f\x7d"` for the nonnegative exact values arising
here (whole numbers and exact tenths): one digit after the decimal point. -/
def format1f (q : ℚ) : String :=
  let t : ℤ := round (q * 10)
  toString (t / 10) ++ "." ++ toString (t % 10)

/-- One table row of the report, from the `for result in test_results` loop of
`generate_html_report` (lines 240-252). -/
def result_row (r : TestResult) : String :=
  let status_class := if r.success then "pass" else "fail"
  let status_text := if r.success then "PASS" else "FAIL"
  "\n            <tr>\n                <td>" ++ r.name ++
  "</td>\n                <td class=\"" ++ status_class ++ "\">" ++ status_text ++
  "</td>\n                <td>" ++ r.message ++
  "</td>\n                <td>" ++ r.duration ++
  "</td>\n                <td>" ++ r.timestamp ++
  "</td>\n            </tr>\n        "

/-- The HTML artifact produced by `generate_html_report` (lines 197-259), as a
function of the recorded results and the `datetime.now()` reading `now`.
Literal braces of the CSS (written `\x7b\x7b` in the source f-string) appear
here escaped. -/
def html_report (rs : List TestResult) (now : String) : String :=
  "\n    <!DOCTYPE html>\n    <html>\n    <head>\n        <title>Elasticsearch Server Verification Report</title>\n        <style>\n            body \x7b font-family: Arial, sans-serif; margin: 20px; \x7d\n            h1, h2 \x7b color: #333; \x7d\n            .summary \x7b background-color: #f5f5f5; padding: 15px; border-radius: 5px; margin-bottom: 20px; \x7d\n            .summary-item \x7b margin: 5px 0; \x7d\n            .test-results \x7b border-collapse: collapse; width: 100%; \x7d\n            .test-results th, .test-results td \x7b border: 1px solid #ddd; padding: 8px; text-align: left; \x7d\n            .test-results th \x7b background-color: #f2f2f2; \x7d\n            .test-results tr:nth-child(even) \x7b background-color: #f9f9f9; \x7d\n            .pass \x7b color: green; \x7d\n            .fail \x7b color: red; \x7d\n            .timestamp \x7b color: #666; font-size: 0.9em; \x7d\n        </style>\n    </head>\n    <body>\n        <h1>Elasticsearch Server Verification Report</h1>\n        <div class=\"timestamp\">Generated on: " ++ now ++
  "</div>\n        \n        <div class=\"summary\">\n            <h2>Summary</h2>\n            <div class=\"summary-item\">Total Tests: " ++ toString (total_tests rs) ++
  "</div>\n            <div class=\"summary-item\">Passed: <span class=\"pass\">" ++ toString (passed_tests rs) ++
  "</span></div>\n            <div class=\"summary-item\">Failed: <span class=\"fail\">" ++ toString (failed_tests rs) ++
  "</span></div>\n            <div class=\"summary-item\">Success Rate: " ++ format1f (success_rate rs) ++
  "%</div>\n        </div>\n        \n        <h2>Test Results</h2>\n        <table class=\"test-results\">\n            <tr>\n                <th>Test Name</th>\n                <th>Status</th>\n                <th>Message</th>\n                <th>Duration</th>\n                <th>Timestamp</th>\n            </tr>\n    " ++
  String.join (rs.map result_row) ++
  "\n        </table>\n    </body>\n    </html>\n    "

/-- Mutable module state around the report: the recorded `test_results`, the
global flag `report_generated` (initially `False`, line 39), the contents of
`REPORT_FILE` on disk, and the trace of artifacts successive
`generate_html_report` calls wrote (the `f.write` at line 262). -/
structure ReportState where
  results : List TestResult
  report_generated : Bool
  report_file : Option String
  generations : List String
  deriving Repr, DecidableEq

/-- Embedding of `generate_html_report()` (lines 185-266): build the artifact
from the current results and the `datetime.now()` reading `now`, write it to
`REPORT_FILE`. -/
def generate_html_report (now : String) (s : ReportState) : ReportState :=
  let content := html_report s.results now
  { s with report_file := some content, generations := s.generations ++ [content] }

/-- Embedding of the GET "/" handler `get_report` (lines 269-283): when the
module flag `report_generated` is unset, generate the report and set the flag;
then read `REPORT_FILE` back and serve its contents. -/
def get_report (now : String) (s : ReportState) : ReportState × String :=
  let t :=
    if !s.report_generated then
      { generate_html_report now s with report_generated := true }
    else s
  (t, t.report_file.getD "")

/-- The name `ES_INDEX` interpolated at `verify_start_es_server.py` line 304 is
bound nowhere in that module (it is a constant of `start_es_server.py`, which
is never imported): evaluating the f-string raises
`NameError: name ES_INDEX is not defined`. -/
def ES_INDEX_ref : Except String String := .error "name ES_INDEX is not defined"

/-- Environment of one verification run: the outcome of each probe operation
and of the direct document lookup, plus the clock readings.  `doc_lookup`
models `GET localhost:9200/\x7bindex\x7d/_doc/\x7bdoc_id\x7d` returning the
document's `auid` on status 200, `none` otherwise. -/
structure VerifyEnv where
  conn : Except String Bool
  store : Except String String
  doc_lookup : String → Option String
  getdata : String → Except String (List String)
  invalid : Except String Bool
  dur : ℕ → String
  ts : ℕ → String

/-- Embedding of the auid-extraction block of `run_verification` (lines
300-309): inside `try`, the URL f-string references the unbound name
`ES_INDEX` and raises `NameError`, which the bare `except Exception` catches,
leaving `auid = None`.  Note that `doc_id` is the `Bool` that `run_test`
returned, so even with a bound index the lookup key would be `str(True)`. -/
def extract_auid (env : VerifyEnv) (doc_id : Bool) : Option String :=
  match ES_INDEX_ref with
  | .error _ => none
  | .ok idx =>
      env.doc_lookup (idx ++ "/_doc/" ++ (if doc_id then "True" else "False"))

/-- Embedding of the test-running part of `run_verification` (lines 294-315):
run the connection probe, run the store probe binding `doc_id` to
`run_test`'s return value, under `if doc_id:` extract the auid and — only
under `if auid:` — run the Get Data probe, then run the Invalid AUID probe. -/
def run_verification_tests (env : VerifyEnv) : List TestResult :=
  let r1 := run_test [] "Elasticsearch Connection" env.conn (env.dur 0) (env.ts 0)
  let r2 := run_test r1.1 "Store Data" env.store (env.dur 1) (env.ts 1)
  let doc_id := r2.2
  let rs :=
    if doc_id then
      match extract_auid env doc_id with
      | some auid =>
          (run_test r2.1 "Get Data" (env.getdata auid) (env.dur 2) (env.ts 2)).1
      | none => r2.1
    else r2.1
  (run_test rs "Invalid AUID" env.invalid (env.dur 3) (env.ts 3)).1

/-- Embedding of the report-producing tail of `run_verification` (line 318):
after the tests it calls `generate_html_report()` directly, starting from the
initial module state (`report_generated = False`, line 39) — the call does
not set `report_generated`. -/
def run_verification_report (env : VerifyEnv) (now : String) : ReportState :=
  generate_html_report now ⟨run_verification_tests env, false, none, []⟩

/-- POSIX signals sent by the harness: `signal.SIGTERM` (graceful) and, for
comparison with the spec's escalation story, `SIGKILL` (forceful).  The source
only ever sends `SIGTERM`. -/
inductive Sig where
  | term
  | kill
  deriving Repr, DecidableEq

/-- A child-process handle as held in the global `es_server_process`: the pid,
its process group id (what `os.getpgid(pid)` returns while the pid exists),
and whether the pid still exists in the OS process table (`running = false`
once `wait()` has reaped it). -/
structure Proc where
  pid : ℕ
  pgid : ℕ
  running : Bool
  deriving Repr, DecidableEq

deriving instance DecidableEq for Except

/-- Result of one `stop_es_server()` call: the handle afterwards (the global
is never reassigned, so the `Proc` value persists, only its OS-side `running`
status changes), the signals sent as (process-group, signal) pairs, and
whether the call returned normally or raised. -/
structure StopOutcome where
  handle : Option Proc
  signals : List (ℕ × Sig)
  outcome : Except String Unit
  deriving Repr, DecidableEq

/-- Embedding of `stop_es_server()` (`verify_start_es_server.py` lines 79-86).
Under `if es_server_process:` it calls
`os.killpg(os.getpgid(pid), signal.SIGTERM)` and then `wait(timeout=5)`.
When the pid no longer exists (it was reaped by a previous `wait`),
`os.getpgid` raises `ProcessLookupError` before any signal is sent.  When the
pid exists, `SIGTERM` goes to its whole process group; `wait(timeout=5)`
either reaps the process (input `exits_within_grace = true`) or raises
`subprocess.TimeoutExpired`.  No other signal is ever sent. -/
def stop_es_server (es_server_process : Option Proc) (exits_within_grace : Bool) :
    StopOutcome :=
  match es_server_process with
  | none => ⟨none, [], .ok ()⟩
  | some p =>
    if p.running then
      if exits_within_grace then
        ⟨some { p with running := false }, [(p.pgid, Sig.term)], .ok ()⟩
      else
        ⟨some p, [(p.pgid, Sig.term)], .error "TimeoutExpired"⟩
    else
      ⟨some p, [], .error "ProcessLookupError"⟩

/-- Readiness loop `for i in range(n): if step(i): return ...` shared by
`start_elasticsearch` (`start_es_server.py` lines 87-96), `start_kibana`
(lines 160-169) and the verify script's `start_es_server` (lines 60-73):
probe once per attempt (a connection error or wrong status is `step i =
false`, never fatal), stop on the success signal, fall through when the
budget is spent.  Returns the result and the number of probes issued; `k` is
the index of the next attempt. -/
def poll_loop (step : ℕ → Bool) : ℕ → ℕ → Bool × ℕ
  | 0, k => (false, k)
  | n + 1, k => if step k then (true, k + 1) else poll_loop step n (k + 1)

/-- Environment of one bootstrap run (`start_es_server.py`): whether each
server already answers 200 before launch, the outcome of each readiness-poll
attempt, and the outcome of `setup_elasticsearch_index`.  Downloading the
binaries (`download_elasticsearch` / `download_kibana`) is a provisioning
precondition the spec excludes from scope, modelled as already satisfied. -/
structure BootEnv where
  es_running : Bool
  es_poll : ℕ → Bool
  setup_index_ok : Except String Unit
  kibana_running : Bool
  kibana_poll : ℕ → Bool

/-- Trace of the processes `subprocess.Popen` launched, in order. -/
structure BootState where
  launched : List String
  deriving Repr, DecidableEq

/-- Embedding of `start_elasticsearch()` (`start_es_server.py` lines 63-100):
skip launch when a running instance already answers; otherwise `Popen` the
server, poll readiness with a budget of `max_retries = 30`, and on exhaustion
raise `RuntimeError("Elasticsearch server failed to start")`. -/
def start_elasticsearch (env : BootEnv) (s : BootState) :
    BootState × Except String Unit :=
  if env.es_running then (s, .ok ())
  else
    let s := { s with launched := s.launched ++ ["elasticsearch"] }
    if (poll_loop env.es_poll 30 0).1 then (s, .ok ())
    else (s, .error "Elasticsearch server failed to start")

/-- Embedding of `start_kibana()` (`start_es_server.py` lines 138-171): same
shape as `start_elasticsearch`, with `max_retries = 60`. -/
def start_kibana (env : BootEnv) (s : BootState) :
    BootState × Except String Unit :=
  if env.kibana_running then (s, .ok ())
  else
    let s := { s with launched := s.launched ++ ["kibana"] }
    if (poll_loop env.kibana_poll 60 0).1 then (s, .ok ())
    else (s, .error "Kibana server failed to start")

/-- Embedding of `startup_event()` (`start_es_server.py` lines 173-178): run
`start_elasticsearch()`, `setup_elasticsearch_index()` and `start_kibana()`
in order; an exception in any step propagates and the later steps never
run. -/
def startup_event (env : BootEnv) : BootState × Except String Unit :=
  match start_elasticsearch env ⟨[]⟩ with
  | (s, .error e) => (s, .error e)
  | (s, .ok _) =>
    match env.setup_index_ok with
    | .error e => (s, .error e)
    | .ok _ => start_kibana env s

/-- Embedding of the verify script's `start_es_server()`
(`verify_start_es_server.py` lines 47-76): `Popen` the server script (the new
handle is the input `p`), then poll up to 30 times; an attempt succeeds when
the Elasticsearch probe and then the FastAPI docs probe both return 200 (a
`ConnectionError` in either is caught as not-yet).  Returns `True` on the
success signal and `False` once the budget is exhausted — it never raises. -/
def start_es_server (p : Proc) (es_ok api_ok : ℕ → Bool) : Option Proc × Bool :=
  (some p, (poll_loop (fun i => es_ok i && api_ok i) 30 0).1)

/-- Everything of the report artifact up to the interpolated `now` reading:
used to reason about which parts of two artifacts can differ. -/
def htmlHead : String :=
  "\n    <!DOCTYPE html>\n    <html>\n    <head>\n        <title>Elasticsearch Server Verification Report</title>\n        <style>\n            body \x7b font-family: Arial, sans-serif; margin: 20px; \x7d\n            h1, h2 \x7b color: #333; \x7d\n            .summary \x7b background-color: #f5f5f5; padding: 15px; border-radius: 5px; margin-bottom: 20px; \x7d\n            .summary-item \x7b margin: 5px 0; \x7d\n            .test-results \x7b border-collapse: collapse; width: 100%; \x7d\n            .test-results th, .test-results td \x7b border: 1px solid #ddd; padding: 8px; text-align: left; \x7d\n            .test-results th \x7b background-color: #f2f2f2; \x7d\n            .test-results tr:nth-child(even) \x7b background-color: #f9f9f9; \x7d\n            .pass \x7b color: green; \x7d\n            .fail \x7b color: red; \x7d\n            .timestamp \x7b color: #666; font-size: 0.9em; \x7d\n        </style>\n    </head>\n    <body>\n        <h1>Elasticsearch Server Verification Report</h1>\n        <div class=\"timestamp\">Generated on: "

/-- Everything of the report artifact after the interpolated `now` reading. -/
def htmlTail (rs : List TestResult) : String :=
  "</div>\n        \n        <div class=\"summary\">\n            <h2>Summary</h2>\n            <div class=\"summary-item\">Total Tests: " ++ toString (total_tests rs) ++
  "</div>\n            <div class=\"summary-item\">Passed: <span class=\"pass\">" ++ toString (passed_tests rs) ++
  "</span></div>\n            <div class=\"summary-item\">Failed: <span class=\"fail\">" ++ toString (failed_tests rs) ++
  "</span></div>\n            <div class=\"summary-item\">Success Rate: " ++ format1f (success_rate rs) ++
  "%</div>\n        </div>\n        \n        <h2>Test Results</h2>\n        <table class=\"test-results\">\n            <tr>\n                <th>Test Name</th>\n                <th>Status</th>\n                <th>Message</th>\n                <th>Duration</th>\n                <th>Timestamp</th>\n            </tr>\n    " ++
  String.join (rs.map result_row) ++
  "\n        </table>\n    </body>\n    </html>\n    "

/-- Environment in which every probe's underlying operation succeeds: the
scenario of the spec's probe-suite claim.  The store operation returns
document id "X", the direct document lookup would find auid "auid-X" for it,
reading that auid yields one record, and the negative lookup sees zero
records (its probe succeeds). -/
def c1Env : VerifyEnv where
  conn := .ok true
  store := .ok "X"
  doc_lookup := fun u => if u = "documentation_data/_doc/X" then some "auid-X" else none
  getdata := fun a =>
    if a = "auid-X" then .ok ["doc"] else .error ("No documents found for auid: " ++ a)
  invalid := .ok true
  dur := fun _ => "0.00s"
  ts := fun _ => "2024-01-01 00:00:00"

/-- Environment identical to `c1Env` except that the store probe's operation
raises, so the write produces no identifier. -/
def c3Env : VerifyEnv := { c1Env with store := .error "store failed" }

/-- Bootstrap environment in which Elasticsearch is not already running and
never answers its readiness probe. -/
def neverReadyEnv : BootEnv :=
  ⟨false, fun _ => false, .ok (), false, fun _ => false⟩

lemma html_report_decomp (rs : List TestResult) (now : String) :
    html_report rs now = htmlHead ++ now ++ htmlTail rs := by
  simp [html_report, htmlHead, htmlTail, String.append_assoc]

lemma string_append_mid_inj {p q x y : String} (h : p ++ x ++ q = p ++ y ++ q) :
    x = y := by
  have hd := congrArg String.data h
  simp only [String.data_append, List.append_assoc] at hd
  have h1 := List.append_cancel_left hd
  have h2 := List.append_cancel_right h1
  cases x; cases y; exact congrArg String.mk h2

lemma html_report_now_inj {rs : List TestResult} {a b : String}
    (h : html_report rs a = html_report rs b) : a = b := by
  rw [html_report_decomp, html_report_decomp] at h
  exact string_append_mid_inj h

lemma poll_loop_count_le (step : ℕ → Bool) :
    ∀ n k : ℕ, (poll_loop step n k).2 ≤ k + n := by
  intro n
  induction n with
  | zero => intro k; simp [poll_loop]
  | succ m ih =>
    intro k
    by_cases h : step k = true
    · simp only [poll_loop, h, if_true]
      omega
    · have hr := ih (k + 1)
      simp only [Bool.not_eq_true] at h
      simp only [poll_loop, h, Bool.false_eq_true, if_false]
      omega

lemma poll_loop_all_false (step : ℕ → Bool) :
    ∀ n k : ℕ, (∀ i, i < k + n → step i = false) → (poll_loop step n k).1 = false := by
  intro n
  induction n with
  | zero => intro k _; simp [poll_loop]
  | succ m ih =>
    intro k h
    have hk : step k = false := h k (by omega)
    have hr := ih (k + 1) (fun i hi => h i (by omega))
    simp [poll_loop, hk, hr]

/-- C2: for every bootstrap environment in which Elasticsearch is not already
running and fails to become ready within its 30-attempt budget,
`startup_event` halts after `start_elasticsearch` with its error — Kibana is
never launched (no later spec of the ordered sequence is ever started). -/
theorem halt_on_es_readiness_failure (env : BootEnv)
    (hrun : env.es_running = false)
    (hpoll : ∀ i, env.es_poll i = false) :
    "kibana" ∉ (startup_event env).1.launched ∧
    (startup_event env).2 = Except.error "Elasticsearch server failed to start" := by
  have hp : (poll_loop env.es_poll 30 0).1 = false :=
    poll_loop_all_false env.es_poll 30 0 (fun i _ => hpoll i)
  simp [startup_event, start_elasticsearch, hrun, hp]

/-- Witness for C2: the never-ready environment satisfies the hypotheses, and
there Kibana is indeed never launched. -/
theorem halt_on_es_readiness_failure_witness :
    neverReadyEnv.es_running = false ∧
    "kibana" ∉ (startup_event neverReadyEnv).1.launched ∧
    (startup_event neverReadyEnv).2 =
      Except.error "Elasticsearch server failed to start" :=
  ⟨rfl, halt_on_es_readiness_failure neverReadyEnv rfl (fun _ => rfl)⟩

/-- C4 counterexample: stopping a launched, running process succeeds, but a
second `stop_es_server` call on the resulting handle raises
`ProcessLookupError` (from `os.getpgid` on the reaped pid, since the global
handle was never cleared) — the claim says the second call raises no error. -/
theorem second_stop_raises_counterexample :
    (stop_es_server (some ⟨100, 100, true⟩) true).outcome = Except.ok () ∧
    (stop_es_server (stop_es_server (some ⟨100, 100, true⟩) true).handle true).outcome =
      Except.error "ProcessLookupError" := by
  exact ⟨rfl, rfl⟩

/-- C4 amended: `stop_es_server` is a no-op (no signal, no error) when no
process handle was ever set; after a successful stop the handle is not
cleared, so a second call sends no second termination signal but raises
`ProcessLookupError` instead of being a no-op. -/
theorem stop_not_cleared_second_stop_raises (p : Proc) (b : Bool)
    (h : p.running = true) :
    (stop_es_server none b).signals = [] ∧
    (stop_es_server none b).outcome = Except.ok () ∧
    (stop_es_server (stop_es_server (some p) true).handle b).signals = [] ∧
    (stop_es_server (stop_es_server (some p) true).handle b).outcome =
      Except.error "ProcessLookupError" := by
  simp [stop_es_server, h]

/-- Witness for the amended C4, at a concrete running process. -/
theorem stop_not_cleared_second_stop_raises_witness :
    (Proc.mk 100 100 true).running = true ∧
    (stop_es_server (stop_es_server (some ⟨100, 100, true⟩) true).handle true).signals
      = [] :=
  ⟨rfl, (stop_not_cleared_second_stop_raises ⟨100, 100, true⟩ true rfl).2.2.1⟩

/-- C7 counterexample: for a running process that does not exit within the
grace period, `stop_es_server` sends only the group `SIGTERM` and then raises
`TimeoutExpired` from `wait(timeout=5)` — it never escalates to forceful
termination, contrary to the claim. -/
theorem stop_timeout_raises_counterexample :
    (stop_es_server (some ⟨200, 201, true⟩) false).signals = [(201, Sig.term)] ∧
    (stop_es_server (some ⟨200, 201, true⟩) false).outcome =
      Except.error "TimeoutExpired" := by
  exact ⟨rfl, rfl⟩

/-- C7 amended: for every running handle, `stop_es_server` sends a graceful
`SIGTERM` to the entire process group and waits up to the fixed 5-second
grace period; if the process exits in time the call returns, otherwise it
raises `TimeoutExpired` — a forceful (`SIGKILL`) escalation never happens. -/
theorem stop_sends_group_sigterm_no_escalation (p : Proc) (g : Bool)
    (h : p.running = true) :
    (stop_es_server (some p) g).signals = [(p.pgid, Sig.term)] ∧
    ((stop_es_server (some p) g).outcome =
      if g then Except.ok () else Except.error "TimeoutExpired") ∧
    ∀ sg ∈ (stop_es_server (some p) g).signals, sg.2 ≠ Sig.kill := by
  cases g <;> simp [stop_es_server, h]

/-- Witness for the amended C7, at a concrete running process that does not
exit within the grace period. -/
theorem stop_sends_group_sigterm_no_escalation_witness :
    (Proc.mk 200 201 true).running = true ∧
    (stop_es_server (some ⟨200, 201, true⟩) false).signals = [(201, Sig.term)] :=
  ⟨rfl, (stop_sends_group_sigterm_no_escalation ⟨200, 201, true⟩ false rfl).1⟩

/-- C9 counterexample: there is no bound on the length of the message a
failed probe's recorded result carries — for any candidate bound, an
exception message longer than it yields a recorded message longer still (no
truncation happens in `run_test`). -/
theorem message_unbounded_counterexample :
    ¬ ∃ B : ℕ, ∀ e : String,
      ∀ r ∈ (run_test ([] : List TestResult) "t"
        (Except.error e : Except String Unit) "d" "s").1,
          r.message.length ≤ B := by
  rintro ⟨B, h⟩
  have hm := h (String.mk (List.replicate (B + 1) 'x'))
    ⟨"t", false, "Test failed: " ++ String.mk (List.replicate (B + 1) 'x'), "d", "s"⟩
    (by simp [run_test])
  simp only [String.length_append] at hm
  rw [show ("Test failed: ").length = 13 from rfl,
    show (String.mk (List.replicate (B + 1) 'x')).length = B + 1 by
      simp [String.length]] at hm
  omega

/-- C9 amended: a probe whose operation raises with message `e` is recorded
with message `"Test failed: " ++ e` — the full exception text behind a fixed
13-character prefix, with no truncation, so the recorded length grows
without bound with the exception message. -/
theorem failure_message_untruncated {α : Type} (rs : List TestResult)
    (n d s e : String) :
    (run_test rs n (Except.error e : Except String α) d s).1 =
      rs ++ [⟨n, false, "Test failed: " ++ e, d, s⟩] ∧
    ("Test failed: " ++ e).length = 13 + e.length := by
  refine ⟨rfl, ?_⟩
  rw [String.length_append, show ("Test failed: ").length = 13 from rfl]

/-- C10: `run_test` returns exactly the success flag of the `ProbeResult` it
appends — true iff the probe raised no exception — and the probe's own
return value is discarded: two probes returning different values yield
identical `run_test` outputs, so no prerequisite data can flow to the caller
through the runner's return value. -/
theorem run_test_returns_success_flag_only {α : Type} (rs : List TestResult)
    (n : String) (f : Except String α) (d s : String) :
    (∃ r, (run_test rs n f d s).1 = rs ++ [r] ∧ (run_test rs n f d s).2 = r.success) ∧
    ((run_test rs n f d s).2 = true ↔ ∃ a, f = Except.ok a) ∧
    (∀ a b : α, run_test rs n (Except.ok a) d s = run_test rs n (Except.ok b) d s) := by
  refine ⟨⟨_, rfl, rfl⟩, ?_, fun a b => rfl⟩
  rcases f with e | a <;> simp [run_test]

/-- C1 (code bug): in the fixed probe suite where every probe's underlying
operation succeeds, the run records exactly THREE ProbeResults, all
successful, and the report summary shows 3 total / 3 passed / success rate
100.0 — not the claimed four: the Get Data probe never executes, because
`run_test` hands back the boolean success flag (bound as `doc_id`) rather
than the document id, and the auid extraction always fails on the unbound
name `ES_INDEX`. -/
theorem probe_suite_all_success_records_three :
    ((run_verification_tests c1Env).map fun r => r.name) =
      ["Elasticsearch Connection", "Store Data", "Invalid AUID"] ∧
    ((run_verification_tests c1Env).all fun r => r.success) = true ∧
    total_tests (run_verification_tests c1Env) = 3 ∧
    passed_tests (run_verification_tests c1Env) = 3 ∧
    failed_tests (run_verification_tests c1Env) = 0 ∧
    success_rate (run_verification_tests c1Env) = 100 ∧
    format1f (success_rate (run_verification_tests c1Env)) = "100.0" ∧
    "Get Data" ∉ ((run_verification_tests c1Env).map fun r => r.name) := by
  have hrs : run_verification_tests c1Env =
      [⟨"Elasticsearch Connection", true, "Test passed", "0.00s", "2024-01-01 00:00:00"⟩,
       ⟨"Store Data", true, "Test passed", "0.00s", "2024-01-01 00:00:00"⟩,
       ⟨"Invalid AUID", true, "Test passed", "0.00s", "2024-01-01 00:00:00"⟩] := rfl
  rw [hrs]
  have hrate : success_rate
      [⟨"Elasticsearch Connection", true, "Test passed", "0.00s", "2024-01-01 00:00:00"⟩,
       ⟨"Store Data", true, "Test passed", "0.00s", "2024-01-01 00:00:00"⟩,
       ⟨"Invalid AUID", true, "Test passed", "0.00s", "2024-01-01 00:00:00"⟩] = 100 := by
    simp [success_rate, total_tests, passed_tests]
  refine ⟨by decide, by decide, by decide, by decide, by decide, hrate, ?_, by decide⟩
  rw [hrate, format1f,
    show ((100 : ℚ) * 10) = ((1000 : ℤ) : ℚ) by norm_num, round_intCast]
  decide

/-- C3 counterexample: when the write probe's operation raises (so the
prerequisite produced no usable identifier), the dependent Get Data probe is
not executed and no ProbeResult is recorded for it — the run yields exactly
the three results Connection / Store Data / Invalid AUID, with the store
failure captured and the suite continuing — contrary to the claim that the
dependent probe is itself executed and recorded as a failure. -/
theorem dependent_probe_skipped_counterexample :
    ((run_verification_tests c3Env).map fun r => r.name) =
      ["Elasticsearch Connection", "Store Data", "Invalid AUID"] ∧
    "Get Data" ∉ ((run_verification_tests c3Env).map fun r => r.name) ∧
    (run_verification_tests c3Env)[1]? =
      some ⟨"Store Data", false, "Test failed: store failed", "0.00s",
        "2024-01-01 00:00:00"⟩ := by
  refine ⟨rfl, by decide, rfl⟩

/-- C3 amended: `run_test` catches a probe's exception, appends exactly one
ProbeResult recording the failure, and the suite continues to the next
probe (the three invoked probes are recorded in order for every
environment); but a dependent probe whose prerequisite produced no usable
output is skipped entirely under the `if doc_id:` / `if auid:` guards — no
ProbeResult is recorded for Get Data — rather than being executed and
recorded as a failure. -/
theorem run_failures_isolated_but_dependent_probe_skipped (env : VerifyEnv) :
    ((run_verification_tests env).map fun r => r.name) =
      ["Elasticsearch Connection", "Store Data", "Invalid AUID"] ∧
    ∀ e, env.store = Except.error e →
      (run_verification_tests env)[1]? =
        some ⟨"Store Data", false, "Test failed: " ++ e, env.dur 1, env.ts 1⟩ := by
  constructor
  · rcases hc : env.conn with ec | vc <;> rcases hs : env.store with es | vs <;>
      rcases hi : env.invalid with ei | vi <;>
        simp [run_verification_tests, run_test, extract_auid, ES_INDEX_ref, hc, hs, hi]
  · intro e he
    rcases hc : env.conn with ec | vc <;>
      simp [run_verification_tests, run_test, extract_auid, ES_INDEX_ref, hc, he]

/-- Witness for the amended C3: in the environment whose store probe raises
"store failed", the Store Data result at index 1 records that failure. -/
theorem run_failures_isolated_but_dependent_probe_skipped_witness :
    c3Env.store = Except.error "store failed" ∧
    (run_verification_tests c3Env)[1]? =
      some ⟨"Store Data", false, "Test failed: " ++ "store failed", "0.00s",
        "2024-01-01 00:00:00"⟩ :=
  ⟨rfl, (run_failures_isolated_but_dependent_probe_skipped c3Env).2
    "store failed" rfl⟩

/-- C5 (code bug): `run_verification` generates the artifact (line 318)
without setting `report_generated`, so the first access to the report
endpoint generates it a second time for the same results snapshot; the two
generated artifacts differ whenever the two `datetime.now()` readings differ
(here by one second).  Only from the second access on is the cached artifact
served unchanged. -/
theorem report_generated_twice_and_artifacts_differ :
    (run_verification_report c1Env "2024-01-01 00:00:05").generations.length = 1 ∧
    (get_report "2024-01-01 00:00:06"
        (run_verification_report c1Env "2024-01-01 00:00:05")).1.generations =
      [html_report (run_verification_tests c1Env) "2024-01-01 00:00:05",
       html_report (run_verification_tests c1Env) "2024-01-01 00:00:06"] ∧
    html_report (run_verification_tests c1Env) "2024-01-01 00:00:05" ≠
      html_report (run_verification_tests c1Env) "2024-01-01 00:00:06" ∧
    get_report "2024-01-01 00:00:07"
        (get_report "2024-01-01 00:00:06"
          (run_verification_report c1Env "2024-01-01 00:00:05")).1 =
      ((get_report "2024-01-01 00:00:06"
          (run_verification_report c1Env "2024-01-01 00:00:05")).1,
        (get_report "2024-01-01 00:00:06"
          (run_verification_report c1Env "2024-01-01 00:00:05")).2) := by
  refine ⟨rfl, rfl, ?_, rfl⟩
  intro h
  have hts := html_report_now_inj h
  have : ("2024-01-01 00:00:05" : String) ≠ "2024-01-01 00:00:06" := by decide
  exact this hts

/-- C6 counterexample: on the one-element all-passed result list the computed
success rate is 100, not `passed / total = 1` — the code multiplies the
ratio by 100 (a percentage), so "success rate equals passed divided by
total" fails on every non-empty sequence with a passed probe. -/
theorem success_rate_not_ratio_counterexample :
    success_rate [⟨"t", true, "Test passed", "0.00s", "s"⟩] ≠
      (passed_tests [⟨"t", true, "Test passed", "0.00s", "s"⟩] : ℚ) /
        (total_tests [⟨"t", true, "Test passed", "0.00s", "s"⟩] : ℚ) := by
  simp [success_rate, passed_tests, total_tests]

/-- C6 amended: building the report from an empty result sequence yields
total 0, passed 0, failed 0 and success rate 0 (the `total_tests > 0` guard
avoids the division); for every non-empty sequence the success rate equals
passed divided by total, times 100 — equivalently `rate * total = passed *
100` — and lies between 0 and 100. -/
theorem report_stats_empty_and_percentage :
    (total_tests [] = 0 ∧ passed_tests [] = 0 ∧ failed_tests [] = 0 ∧
      success_rate [] = 0) ∧
    ∀ rs : List TestResult, rs ≠ [] →
      success_rate rs * (total_tests rs : ℚ) = (passed_tests rs : ℚ) * 100 ∧
      0 ≤ success_rate rs ∧ success_rate rs ≤ 100 := by
  constructor
  · exact ⟨rfl, rfl, rfl, by simp [success_rate, total_tests]⟩
  · intro rs hrs
    have ht : 0 < total_tests rs := by
      cases rs with
      | nil => exact absurd rfl hrs
      | cons a l => simp [total_tests]
    have htQ : (0 : ℚ) < (total_tests rs : ℚ) := by exact_mod_cast ht
    have hple : passed_tests rs ≤ total_tests rs := List.length_filter_le _ _
    have hpQ : (passed_tests rs : ℚ) ≤ (total_tests rs : ℚ) := by exact_mod_cast hple
    refine ⟨?_, ?_, ?_⟩
    · rw [success_rate, if_pos ht]
      field_simp
    · rw [success_rate, if_pos ht]
      positivity
    · rw [success_rate, if_pos ht]
      rw [div_mul_eq_mul_div, div_le_iff₀ htQ]
      nlinarith

/-- Witness for the amended C6, at the one-element all-passed result list. -/
theorem report_stats_empty_and_percentage_witness :
    ([⟨"t", true, "Test passed", "0.00s", "s"⟩] : List TestResult) ≠ [] ∧
    success_rate [⟨"t", true, "Test passed", "0.00s", "s"⟩] *
        (total_tests [⟨"t", true, "Test passed", "0.00s", "s"⟩] : ℚ) =
      (passed_tests [⟨"t", true, "Test passed", "0.00s", "s"⟩] : ℚ) * 100 :=
  ⟨by decide,
    (report_stats_empty_and_percentage.2
      [⟨"t", true, "Test passed", "0.00s", "s"⟩] (by decide)).1⟩

/-- C8 counterexample: when Elasticsearch is not already running and never
answers within the 30-attempt budget, `start_elasticsearch` raises
`RuntimeError("Elasticsearch server failed to start")` rather than returning
false to its caller — contrary to the claim that exhaustion is reported as a
false return and never as a fatal error raised by the polling function. -/
theorem start_elasticsearch_raises_on_exhaustion_counterexample :
    (start_elasticsearch neverReadyEnv ⟨[]⟩).2 =
      Except.error "Elasticsearch server failed to start" := rfl

/-- C8 amended: readiness polling always terminates, issuing at most
`max_attempts` probes; the verify script's `start_es_server` returns false to
its caller once the 30-attempt budget is exhausted without the success
signal, raising nothing; but `start_elasticsearch` raises a `RuntimeError`
on exhaustion instead of returning false. -/
theorem readiness_polling_bounded :
    (∀ (step : ℕ → Bool) (n k : ℕ), (poll_loop step n k).2 ≤ k + n) ∧
    (∀ (p : Proc) (es_ok api_ok : ℕ → Bool),
      (∀ i, (es_ok i && api_ok i) = false) →
        (start_es_server p es_ok api_ok).2 = false) ∧
    (∀ env : BootEnv, env.es_running = false → (∀ i, env.es_poll i = false) →
      (start_elasticsearch env ⟨[]⟩).2 =
        Except.error "Elasticsearch server failed to start") := by
  refine ⟨poll_loop_count_le, ?_, ?_⟩
  · intro p es_ok api_ok hnever
    exact poll_loop_all_false _ 30 0 (fun i _ => hnever i)
  · intro env hrun hpoll
    have hp : (poll_loop env.es_poll 30 0).1 = false :=
      poll_loop_all_false env.es_poll 30 0 (fun i _ => hpoll i)
    simp [start_elasticsearch, hrun, hp]

/-- Witness for the amended C8: concrete never-succeeding probes exhaust the
budget, the verify poller reports false, and the bootstrap launcher raises. -/
theorem readiness_polling_bounded_witness :
    (poll_loop (fun _ => false) 30 0).2 ≤ 0 + 30 ∧
    (start_es_server ⟨100, 100, true⟩ (fun _ => false) (fun _ => true)).2 = false ∧
    (start_elasticsearch neverReadyEnv ⟨[]⟩).2 =
      Except.error "Elasticsearch server failed to start" :=
  ⟨readiness_polling_bounded.1 (fun _ => false) 30 0,
    readiness_polling_bounded.2.1 ⟨100, 100, true⟩ (fun _ => false) (fun _ => true)
      (fun _ => rfl),
    readiness_polling_bounded.2.2 neverReadyEnv rfl (fun _ => rfl)⟩

end ServersSetup
